import Mathlib

/-!
Shallow embedding of the session-upsert store and visit classifier of
src/cybersecurity_utils.py, together with proofs of the specified
properties.

The Google Sheet is modelled as a list of rows of strings plus an explicit
fault schedule: each primitive sheet operation (get_all_values, clear,
append_row, update_cell) consumes one entry of the schedule and raises
(returns an error carrying the store state) when that entry is true.  An
empty schedule means no operation raises, which is the normal fault-free
execution.  Python try/except blocks are embedded as matches on the
resulting Except values.
-/

namespace CyberSec

/-- The fixed 14-column header (FIXED_HEADERS in
initialize_google_sheet_structure). -/
def FIXED_HEADERS : List String :=
  ["Session_ID", "Timestamp_Apertura", "Timestamp_Inizio_Form", "Timestamp_Step2",
   "Timestamp_Completamento", "Dove_Trovato_QR", "Fascia_Eta", "Sesso",
   "Provincia_Nascita", "Titolo_Studio", "Status_Finale", "Completato",
   "User_Agent", "Data_Creazione"]

/-- The session record held in st.session_state.user_data.  Each key of the
Python dict is a field; a key that is absent (or holds Python None) is
represented by the empty string, which is exactly how it renders in the
sheet row (data.get(key, '') and falsy truth-value tests coincide on both).
The completed key only ever holds a boolean. -/
structure SessionData where
  session_id : String := ""
  page_open_timestamp : String := ""
  form_started_timestamp : String := ""
  step2_timestamp : String := ""
  completion_timestamp : String := ""
  qr_location : String := ""
  age_range : String := ""
  gender : String := ""
  birth_province : String := ""
  education : String := ""
  status : String := ""
  completed : Bool := false
  user_agent : String := ""
  deriving Repr, DecidableEq

/-- The fixed_row built inside save_to_google_sheets_fixed; the argument
now stands for the datetime.now() timestamp taken while building the row. -/
def buildFixedRow (d : SessionData) (now : String) : List String :=
  [d.session_id, d.page_open_timestamp, d.form_started_timestamp, d.step2_timestamp,
   d.completion_timestamp, d.qr_location, d.age_range, d.gender, d.birth_province,
   d.education, d.status, if d.completed then "Sì" else "No", d.user_agent, now]

/-- The worksheet: its current grid of rows plus the fault schedule that
decides which upcoming primitive operations raise. -/
structure Sheet where
  rows : List (List String)
  faults : List Bool
  deriving Repr, DecidableEq

/-- Pop the next fault-injection decision (false once the schedule is
exhausted, i.e. all remaining operations succeed). -/
def Sheet.takeFault : Sheet → Bool × Sheet
  | ⟨rows, []⟩ => (false, ⟨rows, []⟩)
  | ⟨rows, b :: bs⟩ => (b, ⟨rows, bs⟩)

/-- sheet.get_all_values(): returns the whole grid, or raises. -/
def opGetAllValues (s : Sheet) : Except Sheet (List (List String) × Sheet) :=
  match s.takeFault with
  | (true, s1) => .error s1
  | (false, s1) => .ok (s1.rows, s1)

/-- sheet.clear(): empties the grid, or raises. -/
def opClear (s : Sheet) : Except Sheet Sheet :=
  match s.takeFault with
  | (true, s1) => .error s1
  | (false, s1) => .ok { s1 with rows := [] }

/-- sheet.append_row(row): appends one row at the bottom, or raises. -/
def opAppendRow (row : List String) (s : Sheet) : Except Sheet Sheet :=
  match s.takeFault with
  | (true, s1) => .error s1
  | (false, s1) => .ok { s1 with rows := s1.rows ++ [row] }

/-- Write value v at 0-based position c of a row, padding with empty cells
if the row is shorter (a spreadsheet row is conceptually unbounded). -/
def setNth : List String → Nat → String → List String
  | [], 0, v => [v]
  | [], n + 1, v => "" :: setNth [] n v
  | _ :: xs, 0, v => v :: xs
  | x :: xs, n + 1, v => x :: setNth xs n v

/-- Write value v at 0-based row r, column c of the grid, padding with
empty rows if needed. -/
def updateGrid : List (List String) → Nat → Nat → String → List (List String)
  | [], 0, c, v => [setNth [] c v]
  | [], r + 1, c, v => [] :: updateGrid [] r c v
  | row :: rest, 0, c, v => setNth row c v :: rest
  | row :: rest, r + 1, c, v => row :: updateGrid rest r c v

/-- sheet.update_cell(r, c, v) with 1-based r and c, or raises. -/
def opUpdateCell (r c : Nat) (v : String) (s : Sheet) : Except Sheet Sheet :=
  match s.takeFault with
  | (true, s1) => .error s1
  | (false, s1) => .ok { s1 with rows := updateGrid s1.rows (r - 1) (c - 1) v }

/-- The try-body of the inner try of initialize_google_sheet_structure:
read the grid and, when the first row is not the fixed header (or the grid
is empty), clear the sheet and append the header. -/
def initTryBody (s : Sheet) : Except Sheet Sheet :=
  match opGetAllValues s with
  | .error s1 => .error s1
  | .ok (data, s1) =>
    if data.head? = some FIXED_HEADERS then .ok s1
    else
      match opClear s1 with
      | .error s2 => .error s2
      | .ok s2 => opAppendRow FIXED_HEADERS s2

/-- The inner except-handler of initialize_google_sheet_structure: on any
error, clear the sheet and append the header from scratch. -/
def initHandler (s : Sheet) : Except Sheet Sheet :=
  match opClear s with
  | .error s1 => .error s1
  | .ok s1 => opAppendRow FIXED_HEADERS s1

/-- initialize_google_sheet_structure(sheet): returns True when the header
is in place afterwards, False when an exception escaped the inner handler
(the outer except). -/
def initialize_google_sheet_structure (s : Sheet) : Bool × Sheet :=
  match initTryBody s with
  | .ok s1 => (true, s1)
  | .error s1 =>
    match initHandler s1 with
    | .ok s2 => (true, s2)
    | .error s2 => (false, s2)

/-- The scan loop of save_to_google_sheets_fixed: enumerate(all_data[1:],
start=2) looking for the first row whose first cell is the session id. -/
def findFrom (sid : String) : List (List String) → Nat → Option Nat
  | [], _ => none
  | row :: rest, i =>
    match row.head? with
    | some x => if x = sid then some i else findFrom sid rest (i + 1)
    | none => findFrom sid rest (i + 1)

/-- 1-based sheet index of the existing row for a session id, skipping the
header row, or none. -/
def findSessionRow (allData : List (List String)) (sid : String) : Option Nat :=
  findFrom sid (allData.drop 1) 2

/-- The update branch of save_to_google_sheets_fixed: for each column
(1-based c) of the new row, update the existing cell only when the new
value is non-empty; any raising update_cell aborts the loop with an error
(caught by the outer except of the save). -/
def updateCells (r : Nat) : List String → Nat → Sheet → Except Sheet Sheet
  | [], _, s => .ok s
  | v :: vs, c, s =>
    if v = "" then updateCells r vs (c + 1) s
    else
      match opUpdateCell r c v s with
      | .ok s1 => updateCells r vs (c + 1) s1
      | .error s1 => .error s1

/-- The try-body of save_to_google_sheets_fixed once a sheet handle is
present: initialize the structure (an init failure returns False with no
further action and raises nothing), build the fixed row, scan for the
session row, then update it cell by cell or append the new row. -/
def saveBody (d : SessionData) (now : String) (s : Sheet) :
    Except Sheet (Bool × Sheet) :=
  match initialize_google_sheet_structure s with
  | (false, s1) => .ok (false, s1)
  | (true, s1) =>
    match opGetAllValues s1 with
    | .error s2 => .error s2
    | .ok (allData, s2) =>
      match findSessionRow allData d.session_id with
      | some r =>
        match updateCells r (buildFixedRow d now) 1 s2 with
        | .ok s3 => .ok (true, s3)
        | .error s3 => .error s3
      | none =>
        match opAppendRow (buildFixedRow d now) s2 with
        | .ok s3 => .ok (true, s3)
        | .error s3 => .error s3

/-- save_to_google_sheets_fixed on a present sheet handle: the outer
except turns any escaped exception into a False return. -/
def saveSheet (d : SessionData) (now : String) (s : Sheet) : Bool × Sheet :=
  match saveBody d now s with
  | .ok r => r
  | .error s1 => (false, s1)

/-- save_to_google_sheets_fixed(data, sheet): a missing (None) sheet
returns False at once. -/
def save_to_google_sheets_fixed (d : SessionData) (now : String) :
    Option Sheet → Bool × Option Sheet
  | none => (false, none)
  | some s =>
    let r := saveSheet d now s
    (r.1, some r.2)

/-- should_track_visit(): the input is the outcome of reading the
user-agent header (error when header access itself raises, ok none when
the header is absent so the .get fallback yields the string Unknown).
The function body has no try/except, so a raising header access
propagates. -/
def should_track_visit (userAgentHeader : Except Unit (Option String)) :
    Except Unit Bool :=
  match userAgentHeader with
  | .error e => .error e
  | .ok ua =>
    let user_agent := ua.getD "Unknown"
    if user_agent = "Unknown" then .ok false else .ok true

/-- The bot_patterns denylist of is_bot_or_health_check. -/
def bot_patterns : List String :=
  ["bot", "crawler", "spider", "scraper", "health", "check", "monitor", "ping",
   "uptime", "status", "test", "probe", "streamlit-cloud", "streamlit-health",
   "python-requests", "curl", "wget", "axios", "fetch", "httpx"]

def isPrefixChars : List Char → List Char → Bool
  | [], _ => true
  | _ :: _, [] => false
  | a :: as, b :: bs => a == b && isPrefixChars as bs

def hasSubstrChars (ned : List Char) : List Char → Bool
  | [] => isPrefixChars ned []
  | c :: t => isPrefixChars ned (c :: t) || hasSubstrChars ned t

/-- Python substring containment (p in s). -/
def containsPattern (hay pat : String) : Bool :=
  hasSubstrChars pat.toList hay.toList

def lowerChar (c : Char) : Char :=
  if 65 ≤ c.toNat ∧ c.toNat ≤ 90 then Char.ofNat (c.toNat + 32) else c

/-- Python str.lower restricted to ASCII, as applied to user agents. -/
def lowerAscii (s : String) : String :=
  String.mk (s.toList.map lowerChar)

/-- The per-step st.session_state.user_data.update(...) performed by
save_step_data; now stands for datetime.now().isoformat(). -/
def stepUpdate (ud : SessionData) (step : Nat) (kw_qr kw_age kw_gender
    kw_province kw_education : String) (now : String) : SessionData :=
  if step = 1 then
    { ud with qr_location := kw_qr, form_started_timestamp := now,
              status := "form_started" }
  else if step = 2 then
    { ud with age_range := kw_age, gender := kw_gender,
              birth_province := kw_province, education := kw_education,
              status := "step2_completed", step2_timestamp := now }
  else if step = 3 then
    { ud with status := "fully_completed", completion_timestamp := now,
              completed := true }
  else ud

/-- Relevant Streamlit session state: whether page_tracked is set, the
user_data record and the session_id. -/
structure AppState where
  page_tracked : Bool := false
  user_data : SessionData := {}
  session_id : String := ""
  deriving Repr, DecidableEq

/-- The EFFECTIVE save_step_data (the second definition in the module,
which shadows the earlier filtered one and performs no
should_track_visit check): update user_data for the step, then save when
a sheet handle is present, else report True. -/
def save_step_data (step : Nat) (sheet : Option Sheet) (kw_qr kw_age kw_gender
    kw_province kw_education : String) (now : String) (st : AppState) :
    Bool × AppState × Option Sheet :=
  let ud := stepUpdate st.user_data step kw_qr kw_age kw_gender kw_province
      kw_education now
  let st1 : AppState := { st with user_data := ud }
  match sheet with
  | none => (true, st1, none)
  | some s =>
    let r := saveSheet ud now s
    (r.1, st1, some r.2)

/-- The EFFECTIVE track_page_opening (the second definition in the module,
which shadows the earlier filtered one and performs no should_track_visit
check): on first load record the opening and save; userAgent is the value
of headers.get(user-agent, Unknown) and sheet the handle returned by
setup_google_sheets. -/
def track_page_opening (st : AppState) (now userAgent : String)
    (sheet : Option Sheet) : Bool × AppState × Option Sheet :=
  if st.page_tracked then (false, st, sheet)
  else
    let ud : SessionData :=
      { st.user_data with
        page_open_timestamp := now, status := "page_opened",
        user_agent := userAgent, session_id := st.session_id }
    let st1 : AppState := { st with page_tracked := true, user_data := ud }
    match sheet with
    | none => (true, st1, none)
    | some s => (true, st1, some (saveSheet ud now s).2)

/-- Run a sequence of upserts (save_to_google_sheets_fixed calls),
threading the store. -/
def runSaves (sh : Option Sheet) (seq : List (SessionData × String)) :
    Option Sheet :=
  seq.foldl (fun a p => (save_to_google_sheets_fixed p.1 p.2 a).2) sh

/-- Run a sequence of in-memory step updates (save_step_data with no
store attached), threading the session record; each list entry is
(step, qr, age, gender, province, education, now). -/
def runSteps (ud : SessionData)
    (steps : List (Nat × String × String × String × String × String × String)) :
    SessionData :=
  steps.foldl
    (fun u p => stepUpdate u p.1 p.2.1 p.2.2.1 p.2.2.2.1 p.2.2.2.2.1
      p.2.2.2.2.2.1 p.2.2.2.2.2.2) ud

/-- The cell update applied per column by the update branch: keep the old
value when the new one is empty. -/
def updV (o n : String) : String := if n = "" then o else n

/-- The cell-level merge performed by the update branch: a non-empty new
value overwrites, an empty one keeps the old cell. -/
def mergeRow (old new : List String) : List String :=
  List.zipWith updV old new

/-- Number of data rows (header excluded) whose first cell is the given
session id. -/
def countSessionRows (rows : List (List String)) (sid : String) : Nat :=
  (rows.drop 1).countP (fun r => r.head? == some sid)

/-- The values a list of rows holds in column j (empty when a row is too
short, as an empty spreadsheet cell). -/
def columnValues (rows : List (List String)) (j : Nat) : List String :=
  rows.map (fun r => (r.get? j).getD "")

/-- The last non-empty string of a list, or the empty string when there is
none. -/
def lastNonEmpty (vs : List String) : String :=
  ((vs.filter (fun v => v ≠ "")).getLast?).getD ""

/-! ### Helper lemmas about the schema initialisation and the upsert -/

lemma init_keep (rows : List (List String)) (h : rows.head? = some FIXED_HEADERS) :
    initialize_google_sheet_structure ⟨rows, []⟩ = (true, ⟨rows, []⟩) := by
  simp [initialize_google_sheet_structure, initTryBody, opGetAllValues,
    Sheet.takeFault, h]

lemma init_reset (rows : List (List String))
    (h : rows.head? ≠ some FIXED_HEADERS) :
    initialize_google_sheet_structure ⟨rows, []⟩
      = (true, ⟨[FIXED_HEADERS], []⟩) := by
  simp [initialize_google_sheet_structure, initTryBody, opGetAllValues,
    opClear, opAppendRow, Sheet.takeFault, h]

lemma findFrom_none (sid : String) (l : List (List String)) (i : Nat)
    (h : ∀ r ∈ l, r.head? ≠ some sid) : findFrom sid l i = none := by
  induction l generalizing i with
  | nil => rfl
  | cons r rest ih =>
    have hr := h r (by simp)
    have hrest : ∀ x ∈ rest, x.head? ≠ some sid := fun x hx => h x (by simp [hx])
    cases hh : r.head? with
    | none => simpa [findFrom, hh] using ih (i + 1) hrest
    | some x =>
      have hx : x ≠ sid := by rintro rfl; exact hr hh
      simpa [findFrom, hh, hx] using ih (i + 1) hrest

lemma saveSheet_append (d : SessionData) (now : String)
    (pre : List (List String))
    (h : ∀ r ∈ pre, r.head? ≠ some d.session_id) :
    saveSheet d now ⟨FIXED_HEADERS :: pre, []⟩
      = (true, ⟨FIXED_HEADERS :: (pre ++ [buildFixedRow d now]), []⟩) := by
  have hfind : findSessionRow (FIXED_HEADERS :: pre) d.session_id = none := by
    simpa [findSessionRow] using findFrom_none d.session_id pre 2 h
  simp [saveSheet, saveBody, init_keep (FIXED_HEADERS :: pre) rfl,
    opGetAllValues, opAppendRow, Sheet.takeFault, hfind]

lemma setNth_append (done : List String) (t : String) (rest : List String)
    (v : String) :
    setNth (done ++ t :: rest) done.length v = done ++ v :: rest := by
  induction done with
  | nil => rfl
  | cons x xs ih => simp [setNth, ih]

lemma updateGrid_last (front : List (List String)) (cur : List String)
    (c : Nat) (v : String) :
    updateGrid (front ++ [cur]) front.length c v = front ++ [setNth cur c v] := by
  induction front with
  | nil => rfl
  | cons x xs ih => simp [updateGrid, ih]

lemma findFrom_found (sid : String) (cur : List String)
    (hcur : cur.head? = some sid) :
    ∀ (pre : List (List String)) (i : Nat),
      (∀ r ∈ pre, r.head? ≠ some sid) →
      findFrom sid (pre ++ [cur]) i = some (i + pre.length) := by
  intro pre
  induction pre with
  | nil => intro i _; simp [findFrom, hcur]
  | cons r rest ih =>
    intro i h
    have hr := h r (by simp)
    have hrest : ∀ x ∈ rest, x.head? ≠ some sid :=
      fun x hx => h x (by simp [hx])
    have hrec := ih (i + 1) hrest
    cases hh : r.head? with
    | none =>
      rw [List.cons_append]
      simp only [findFrom, hh, hrec, List.length_cons]
      congr 1
      omega
    | some x =>
      have hx : x ≠ sid := by rintro rfl; exact hr hh
      rw [List.cons_append]
      simp only [findFrom, hh, if_neg hx, hrec, List.length_cons]
      congr 1
      omega

lemma updateCells_merge (vs : List String) :
    ∀ (done todo : List String) (front : List (List String)),
      todo.length = vs.length →
      updateCells (front.length + 1) vs (done.length + 1)
          ⟨front ++ [done ++ todo], []⟩
        = .ok ⟨front ++ [done ++ mergeRow todo vs], []⟩ := by
  induction vs with
  | nil =>
    intro done todo front h
    have : todo = [] := List.length_eq_zero.mp h
    subst this
    simp [updateCells, mergeRow]
  | cons v vs ih =>
    intro done todo front h
    cases todo with
    | nil => simp at h
    | cons t todo =>
      have hlen : todo.length = vs.length := by simpa using h
      by_cases hv : v = ""
      · subst hv
        simp only [updateCells, if_pos rfl]
        have := ih (done ++ [t]) todo front hlen
        simp only [List.length_append, List.length_cons, List.length_nil,
          List.append_assoc, List.cons_append, List.nil_append] at this
        rw [this]
        simp [mergeRow, updV]
      · simp only [updateCells, if_neg hv, opUpdateCell, Sheet.takeFault]
        have hgrid : updateGrid (front ++ [done ++ t :: todo])
            (front.length + 1 - 1) (done.length + 1 - 1) v
            = front ++ [done ++ v :: todo] := by
          simp only [Nat.add_sub_cancel]
          rw [updateGrid_last, setNth_append]
        rw [hgrid]
        have := ih (done ++ [v]) todo front hlen
        simp only [List.length_append, List.length_cons, List.length_nil,
          List.append_assoc, List.cons_append, List.nil_append] at this
        rw [this]
        simp [mergeRow, updV, hv]

lemma buildFixedRow_length (d : SessionData) (now : String) :
    (buildFixedRow d now).length = 14 := by
  simp [buildFixedRow]

lemma buildFixedRow_head (d : SessionData) (now : String) :
    (buildFixedRow d now).head? = some d.session_id := by
  simp [buildFixedRow]

lemma saveSheet_update (d : SessionData) (now : String)
    (pre : List (List String)) (cur : List String)
    (hpre : ∀ r ∈ pre, r.head? ≠ some d.session_id)
    (hcur : cur.head? = some d.session_id) (hlen : cur.length = 14) :
    saveSheet d now ⟨FIXED_HEADERS :: (pre ++ [cur]), []⟩
      = (true, ⟨FIXED_HEADERS :: (pre ++ [mergeRow cur (buildFixedRow d now)]),
          []⟩) := by
  have hfind : findSessionRow (FIXED_HEADERS :: (pre ++ [cur])) d.session_id
      = some (pre.length + 2) := by
    have := findFrom_found d.session_id cur hcur pre 2 hpre
    simp only [findSessionRow, List.drop_succ_cons, List.drop_zero, this]
    congr 1
    omega
  have hupd := updateCells_merge (buildFixedRow d now) [] cur
    (FIXED_HEADERS :: pre) (by rw [hlen, buildFixedRow_length])
  simp only [List.nil_append, List.length_cons, List.length_nil,
    List.cons_append] at hupd
  have harith : pre.length + 2 = pre.length + 1 + 1 := by omega
  simp [saveSheet, saveBody, init_keep (FIXED_HEADERS :: (pre ++ [cur])) rfl,
    opGetAllValues, Sheet.takeFault, hfind, harith, hupd]

lemma mergeRow_head (a b : List String) (x : String) (ha : a.head? = some x)
    (hb : b.head? = some x) : (mergeRow a b).head? = some x := by
  cases a with
  | nil => simp at ha
  | cons a0 as =>
    cases b with
    | nil => simp at hb
    | cons b0 bs =>
      simp only [List.head?_cons, Option.some.injEq] at ha hb
      subst ha; subst hb
      simp [mergeRow, updV, ite_self]

lemma mergeRow_length (a b : List String) (h : b.length = a.length) :
    (mergeRow a b).length = a.length := by
  simp [mergeRow, List.length_zipWith, h]

lemma runSaves_merge (sid : String) :
    ∀ (seq : List (SessionData × String)) (pre : List (List String))
      (acc : List String),
      (∀ q ∈ seq, q.1.session_id = sid) →
      (∀ r ∈ pre, r.head? ≠ some sid) →
      acc.head? = some sid → acc.length = 14 →
      runSaves (some ⟨FIXED_HEADERS :: (pre ++ [acc]), []⟩) seq
        = some ⟨FIXED_HEADERS :: (pre ++
            [seq.foldl (fun a q => mergeRow a (buildFixedRow q.1 q.2)) acc]),
            []⟩ := by
  intro seq
  induction seq with
  | nil =>
    intro pre acc _ _ _ _
    simp [runSaves]
  | cons q rest ih =>
    intro pre acc hseq hpre hacc hlen
    have hq : q.1.session_id = sid := hseq q (by simp)
    have hstep := saveSheet_update q.1 q.2 pre acc
      (by rw [hq]; exact hpre) (by rw [hq]; exact hacc) hlen
    have hsave : save_to_google_sheets_fixed q.1 q.2
        (some ⟨FIXED_HEADERS :: (pre ++ [acc]), []⟩)
        = (true, some ⟨FIXED_HEADERS ::
            (pre ++ [mergeRow acc (buildFixedRow q.1 q.2)]), []⟩) := by
      simp [save_to_google_sheets_fixed, hstep]
    have hacc2 : (mergeRow acc (buildFixedRow q.1 q.2)).head? = some sid :=
      mergeRow_head _ _ _ hacc (by rw [buildFixedRow_head, hq])
    have hlen2 : (mergeRow acc (buildFixedRow q.1 q.2)).length = 14 := by
      rw [mergeRow_length _ _ (by rw [buildFixedRow_length, hlen]), hlen]
    have hrest : ∀ x ∈ rest, x.1.session_id = sid :=
      fun x hx => hseq x (by simp [hx])
    simp only [runSaves, List.foldl_cons]
    rw [show (save_to_google_sheets_fixed q.1 q.2
        (some ⟨FIXED_HEADERS :: (pre ++ [acc]), []⟩)).2
        = some ⟨FIXED_HEADERS ::
            (pre ++ [mergeRow acc (buildFixedRow q.1 q.2)]), []⟩ by
      rw [hsave]]
    exact ih pre (mergeRow acc (buildFixedRow q.1 q.2)) hrest hpre hacc2 hlen2

lemma get?_mergeRow :
    ∀ (a b : List String) (j : Nat), j < a.length → j < b.length →
      (mergeRow a b).get? j
        = some (updV ((a.get? j).getD "") ((b.get? j).getD "")) := by
  intro a
  induction a with
  | nil => intro b j h1 _; simp at h1
  | cons x xs ih =>
    intro b j h1 h2
    cases b with
    | nil => simp at h2
    | cons y ys =>
      cases j with
      | zero => simp [mergeRow]
      | succ j =>
        have := ih ys j (by simpa using h1) (by simpa using h2)
        simpa [mergeRow] using this

lemma foldl_mergeRow_get? :
    ∀ (bs : List (List String)) (acc : List String) (j : Nat),
      j < acc.length → (∀ b ∈ bs, b.length = acc.length) →
      (bs.foldl mergeRow acc).get? j
        = some (List.foldl updV ((acc.get? j).getD "")
            (bs.map (fun b => (b.get? j).getD ""))) := by
  intro bs
  induction bs with
  | nil =>
    intro acc j hj _
    cases hv : acc.get? j with
    | none =>
      rw [List.get?_eq_none] at hv
      omega
    | some v =>
      simp only [List.foldl_nil, List.map_nil]
      rw [hv]
      rfl
  | cons b bs ih =>
    intro acc j hj hlen
    have hb : b.length = acc.length := hlen b (by simp)
    have hm : (mergeRow acc b).length = acc.length := mergeRow_length _ _ hb
    have hlen2 : ∀ x ∈ bs, x.length = (mergeRow acc b).length := by
      intro x hx
      rw [hm]
      exact hlen x (by simp [hx])
    rw [List.foldl_cons, List.map_cons, List.foldl_cons,
      ih (mergeRow acc b) j (by rw [hm]; exact hj) hlen2]
    congr 2
    rw [get?_mergeRow acc b j hj (by rw [hb]; exact hj)]
    rfl

lemma getLast?_append_cons :
    ∀ (xs : List String) (y : String) (ys : List String),
      (xs ++ y :: ys).getLast? = (y :: ys).getLast? := by
  intro xs
  induction xs with
  | nil => intro y ys; rfl
  | cons x xs ih =>
    intro y ys
    cases xs with
    | nil => simp
    | cons x2 xs2 =>
      rw [List.cons_append, List.cons_append, List.getLast?_cons_cons]
      have := ih y ys
      rw [List.cons_append] at this
      exact this

lemma filter_ne_cons (w : String) (vs : List String) (hw : w ≠ "") :
    (w :: vs).filter (fun v => v ≠ "") = w :: vs.filter (fun v => v ≠ "") := by
  simp [List.filter_cons, hw]

lemma filter_empty_cons (vs : List String) :
    ("" :: vs).filter (fun v => v ≠ "") = vs.filter (fun v => v ≠ "") := by
  simp [List.filter_cons]

lemma foldl_updV_lastNonEmpty :
    ∀ (vs : List String) (i : String),
      List.foldl updV i vs = lastNonEmpty (i :: vs) := by
  intro vs
  induction vs with
  | nil =>
    intro i
    by_cases hi : i = "" <;>
      simp [lastNonEmpty, List.filter_cons, hi]
  | cons v vs ih =>
    intro i
    rw [List.foldl_cons, ih (updV i v)]
    by_cases hv : v = ""
    · subst hv
      have hu : updV i "" = i := rfl
      rw [hu]
      unfold lastNonEmpty
      by_cases hi : i = ""
      · subst hi
        rw [filter_empty_cons, filter_empty_cons, filter_empty_cons]
      · rw [filter_ne_cons i vs hi, filter_ne_cons i ("" :: vs) hi,
          filter_empty_cons]
    · simp only [updV, if_neg hv]
      unfold lastNonEmpty
      by_cases hi : i = ""
      · subst hi
        rw [filter_empty_cons]
      · rw [filter_ne_cons v vs hv, filter_ne_cons i (v :: vs) hi,
          filter_ne_cons v vs hv, List.getLast?_cons_cons]

lemma completato_cell (d : SessionData) (now : String) :
    (buildFixedRow d now).get? 11 = some (if d.completed then "Sì" else "No") :=
  rfl

lemma runSteps_no3 :
    ∀ (steps : List (Nat × String × String × String × String × String × String))
      (ud : SessionData),
      (∀ p ∈ steps, p.1 = 1 ∨ p.1 = 2) →
      (runSteps ud steps).completed = ud.completed ∧
      ((runSteps ud steps).status = ud.status ∨
       (runSteps ud steps).status = "form_started" ∨
       (runSteps ud steps).status = "step2_completed") := by
  intro steps
  induction steps with
  | nil => intro ud _; exact ⟨rfl, Or.inl rfl⟩
  | cons p rest ih =>
    intro ud h
    have hp := h p (by simp)
    have hrest : ∀ x ∈ rest, x.1 = 1 ∨ x.1 = 2 :=
      fun x hx => h x (by simp [hx])
    have hstep : runSteps ud (p :: rest)
        = runSteps (stepUpdate ud p.1 p.2.1 p.2.2.1 p.2.2.2.1 p.2.2.2.2.1
            p.2.2.2.2.2.1 p.2.2.2.2.2.2) rest := rfl
    rcases hp with h1 | h2
    · have hud : stepUpdate ud p.1 p.2.1 p.2.2.1 p.2.2.2.1 p.2.2.2.2.1
          p.2.2.2.2.2.1 p.2.2.2.2.2.2
          = { ud with qr_location := p.2.1,
                      form_started_timestamp := p.2.2.2.2.2.2,
                      status := "form_started" } := by
        simp [stepUpdate, h1]
      rw [hstep, hud]
      obtain ⟨hc, hs⟩ := ih _ hrest
      refine ⟨by rw [hc], ?_⟩
      rcases hs with h | h | h <;> simp [h]
    · have hud : stepUpdate ud p.1 p.2.1 p.2.2.1 p.2.2.2.1 p.2.2.2.2.1
          p.2.2.2.2.2.1 p.2.2.2.2.2.2
          = { ud with age_range := p.2.2.1, gender := p.2.2.2.1,
                      birth_province := p.2.2.2.2.1,
                      education := p.2.2.2.2.2.1,
                      status := "step2_completed",
                      step2_timestamp := p.2.2.2.2.2.2 } := by
        simp [stepUpdate, h2]
      rw [hstep, hud]
      obtain ⟨hc, hs⟩ := ih _ hrest
      refine ⟨by rw [hc], ?_⟩
      rcases hs with h | h | h <;> simp [h]

/-! ### Claim theorems -/

/-- Claim C4: whenever the first row of the store differs from the
canonical 14-column header (including the empty store),
initialize_google_sheet_structure clears the store and appends the
canonical header, so afterwards the store consists of exactly the header
row and returns true. -/
theorem claim_C4 (rows : List (List String))
    (h : rows.head? ≠ some FIXED_HEADERS) :
    initialize_google_sheet_structure ⟨rows, []⟩
      = (true, ⟨[FIXED_HEADERS], []⟩) :=
  init_reset rows h

theorem claim_C4_witness :
    (([["corrupted"]] : List (List String)).head? ≠ some FIXED_HEADERS) ∧
    initialize_google_sheet_structure ⟨[["corrupted"]], []⟩
      = (true, ⟨[FIXED_HEADERS], []⟩) :=
  ⟨by decide, claim_C4 [["corrupted"]] (by decide)⟩

/-- Claim C5: initialize_google_sheet_structure is idempotent: after one
call has established the canonical header, a second consecutive call
returns true and leaves the store (header and all data rows) completely
unchanged, performing no destructive clear. -/
theorem claim_C5 (rows : List (List String)) :
    initialize_google_sheet_structure
        (initialize_google_sheet_structure ⟨rows, []⟩).2
      = (true, (initialize_google_sheet_structure ⟨rows, []⟩).2) := by
  by_cases h : rows.head? = some FIXED_HEADERS
  · rw [init_keep rows h]
    exact init_keep rows h
  · rw [init_reset rows h]
    exact init_keep [FIXED_HEADERS] rfl

/-- Claim C6: save_to_google_sheets_fixed first runs the schema
initialisation; if that reports false the save returns false and performs
no further action on the store (the state is exactly the one the failed
initialisation left); and any exception escaping the save body is caught,
the save returning false instead of propagating it. -/
theorem claim_C6 (d : SessionData) (now : String) (s : Sheet) :
    ((initialize_google_sheet_structure s).1 = false →
      save_to_google_sheets_fixed d now (some s)
        = (false, some (initialize_google_sheet_structure s).2)) ∧
    (∀ s1, saveBody d now s = .error s1 →
      save_to_google_sheets_fixed d now (some s) = (false, some s1)) := by
  constructor
  · intro h
    rcases hi : initialize_google_sheet_structure s with ⟨b, s1⟩
    rw [hi] at h
    subst h
    simp [save_to_google_sheets_fixed, saveSheet, saveBody, hi]
  · intro s1 h
    simp [save_to_google_sheets_fixed, saveSheet, h]

theorem claim_C6_witness :
    (initialize_google_sheet_structure ⟨[], [true, true]⟩).1 = false ∧
    save_to_google_sheets_fixed {} "" (some ⟨[], [true, true]⟩)
      = (false, some ⟨[], []⟩) ∧
    saveBody {} "" ⟨[], [false, false, false, true]⟩
      = .error ⟨[FIXED_HEADERS], []⟩ ∧
    save_to_google_sheets_fixed {} "" (some ⟨[], [false, false, false, true]⟩)
      = (false, some ⟨[FIXED_HEADERS], []⟩) :=
  ⟨rfl, (claim_C6 {} "" ⟨[], [true, true]⟩).1 rfl, rfl,
    (claim_C6 {} "" ⟨[], [false, false, false, true]⟩).2 ⟨[FIXED_HEADERS], []⟩ rfl⟩

/-- Claim C3: upserting a session id that occurs in no existing data row
of a store with the correct header appends exactly one new 14-column row
whose first column is that id (absent fields rendered as empty strings,
never omitted), and a read-all afterwards has exactly one data row whose
first column equals the id. -/
theorem claim_C3 (d : SessionData) (now : String) (pre : List (List String))
    (h : ∀ r ∈ pre, r.head? ≠ some d.session_id) :
    save_to_google_sheets_fixed d now (some ⟨FIXED_HEADERS :: pre, []⟩)
      = (true, some ⟨FIXED_HEADERS :: (pre ++ [buildFixedRow d now]), []⟩) ∧
    (buildFixedRow d now).length = 14 ∧
    (buildFixedRow d now).head? = some d.session_id ∧
    countSessionRows (FIXED_HEADERS :: (pre ++ [buildFixedRow d now]))
      d.session_id = 1 := by
  refine ⟨?_, by simp [buildFixedRow], by simp [buildFixedRow], ?_⟩
  · simp [save_to_google_sheets_fixed, saveSheet_append d now pre h]
  · have hpre : pre.countP (fun r => r.head? == some d.session_id) = 0 :=
      List.countP_eq_zero.mpr (by
        intro r hr
        simpa using h r hr)
    simp [countSessionRows, List.countP_append, List.countP_cons, hpre,
      buildFixedRow]

theorem claim_C3_witness :
    save_to_google_sheets_fixed { session_id := "s1" } "t"
        (some ⟨[FIXED_HEADERS], []⟩)
      = (true, some ⟨[FIXED_HEADERS,
          buildFixedRow { session_id := "s1" } "t"], []⟩) ∧
    countSessionRows [FIXED_HEADERS, buildFixedRow { session_id := "s1" } "t"]
      "s1" = 1 := by
  have h := claim_C3 { session_id := "s1" } "t" [] (by simp)
  exact ⟨h.1, h.2.2.2⟩

/-- Claim C10: with a missing (None) store handle the two layers disagree:
save_to_google_sheets_fixed returns false without raising, while the
effective save_step_data returns true to its caller, so a missing store
connection is indistinguishable from a successful save at the step-handler
interface. -/
theorem claim_C10 (d : SessionData) (now : String) (step : Nat)
    (kq ka kg kp ke tnow : String) (st : AppState) :
    save_to_google_sheets_fixed d now none = (false, none) ∧
    (save_step_data step none kq ka kg kp ke tnow st).1 = true :=
  ⟨rfl, rfl⟩

/-- Claim C8: the code does NOT fail open: when header access itself
raises, should_track_visit propagates the exception instead of returning
true (treat as genuine) as the specification requires. -/
theorem claim_C8 :
    should_track_visit (.error ()) = .error () := rfl

/-- Claim C7: should_track_visit rejects a request whose user-agent is the
missing-header sentinel (either the header is absent, so the .get fallback
yields Unknown, or it literally equals Unknown), and accepts every request
carrying a realistic browser user-agent (longer than 20 characters, no
denylisted substring in its lowercase form) with a referrer present. -/
theorem claim_C7 :
    should_track_visit (.ok none) = .ok false ∧
    should_track_visit (.ok (some "Unknown")) = .ok false ∧
    ∀ (ua referer : String), 20 < ua.length → referer ≠ "" →
      (∀ p ∈ bot_patterns, containsPattern (lowerAscii ua) p = false) →
      should_track_visit (.ok (some ua)) = .ok true := by
  refine ⟨rfl, rfl, ?_⟩
  intro ua referer hlen _ _
  have hne : ua ≠ "Unknown" := by
    intro heq
    rw [heq] at hlen
    have h7 : ("Unknown" : String).length = 7 := rfl
    rw [h7] at hlen
    omega
  simp [should_track_visit, hne]

theorem claim_C7_witness :
    20 < ("Mozilla/5.0 Gecko Firefox Engine" : String).length ∧
    ("https://example.com" : String) ≠ "" ∧
    (∀ p ∈ bot_patterns,
      containsPattern (lowerAscii "Mozilla/5.0 Gecko Firefox Engine") p
        = false) ∧
    should_track_visit (.ok (some "Mozilla/5.0 Gecko Firefox Engine"))
      = .ok true :=
  ⟨by decide, by decide, by decide,
    claim_C7.2.2 "Mozilla/5.0 Gecko Firefox Engine" "https://example.com"
      (by decide) (by decide) (by decide)⟩

/-- Claim C2 fails on the code: track_page_opening and save_step_data are
each defined twice in the module and the later definitions — the effective
ones — never consult should_track_visit.  Here a request whose user-agent
is the sentinel Unknown is rejected by the classifier, yet the effective
track_page_opening and the effective save_step_data both persist a row to
the store. -/
theorem claim_C2 :
    should_track_visit (.ok (some "Unknown")) = .ok false ∧
    track_page_opening { session_id := "sess1" } "t0" "Unknown"
        (some ⟨[FIXED_HEADERS], []⟩)
      = (true,
         { page_tracked := true,
           user_data := { session_id := "sess1", page_open_timestamp := "t0",
                          status := "page_opened", user_agent := "Unknown" },
           session_id := "sess1" },
         some ⟨[FIXED_HEADERS,
           ["sess1", "t0", "", "", "", "", "", "", "", "", "page_opened",
            "No", "Unknown", "t0"]], []⟩) ∧
    save_step_data 1 (some ⟨[FIXED_HEADERS], []⟩) "Bar/Ristorante" "" "" "" ""
        "t1" { user_data := { session_id := "sess2" } }
      = (true,
         { page_tracked := false,
           user_data := { session_id := "sess2",
                          form_started_timestamp := "t1",
                          qr_location := "Bar/Ristorante",
                          status := "form_started" },
           session_id := "" },
         some ⟨[FIXED_HEADERS,
           ["sess2", "", "t1", "", "", "Bar/Ristorante", "", "", "", "",
            "form_started", "No", "", "t1"]], []⟩) := by
  refine ⟨rfl, ?_, ?_⟩ <;> rfl

/-- Claim C1: for any non-empty sequence of upserts carrying the same
session id, run against a store with the correct header none of whose data
rows carries that id, the store ends with a single row for the id obtained
by left-folding the cell-level merge over the built rows, and each of its
14 columns holds the last non-empty value supplied for that column across
the sequence (the empty string when the column was never supplied
non-empty); in particular an upsert whose built row is empty in some
column never overwrites a previously non-empty cell of that column. -/
theorem claim_C1 (sid : String) (pre : List (List String))
    (p0 : SessionData × String) (seq : List (SessionData × String))
    (hpre : ∀ r ∈ pre, r.head? ≠ some sid)
    (hsid : ∀ q ∈ (p0 :: seq), q.1.session_id = sid) :
    runSaves (some ⟨FIXED_HEADERS :: pre, []⟩) (p0 :: seq)
      = some ⟨FIXED_HEADERS :: (pre ++
          [seq.foldl (fun a q => mergeRow a (buildFixedRow q.1 q.2))
            (buildFixedRow p0.1 p0.2)]), []⟩ ∧
    ∀ j, j < 14 →
      (seq.foldl (fun a q => mergeRow a (buildFixedRow q.1 q.2))
          (buildFixedRow p0.1 p0.2)).get? j
        = some (lastNonEmpty (columnValues
            ((p0 :: seq).map (fun q => buildFixedRow q.1 q.2)) j)) := by
  have hp0 : p0.1.session_id = sid := hsid p0 (by simp)
  have hrest : ∀ q ∈ seq, q.1.session_id = sid :=
    fun q hq => hsid q (by simp [hq])
  constructor
  · have hfirst : save_to_google_sheets_fixed p0.1 p0.2
        (some ⟨FIXED_HEADERS :: pre, []⟩)
        = (true, some ⟨FIXED_HEADERS :: (pre ++ [buildFixedRow p0.1 p0.2]),
            []⟩) := by
      have := saveSheet_append p0.1 p0.2 pre (by rw [hp0]; exact hpre)
      simp [save_to_google_sheets_fixed, this]
    simp only [runSaves, List.foldl_cons]
    rw [show (save_to_google_sheets_fixed p0.1 p0.2
        (some ⟨FIXED_HEADERS :: pre, []⟩)).2
        = some ⟨FIXED_HEADERS :: (pre ++ [buildFixedRow p0.1 p0.2]), []⟩ by
      rw [hfirst]]
    exact runSaves_merge sid seq pre (buildFixedRow p0.1 p0.2) hrest hpre
      (by rw [buildFixedRow_head, hp0]) (buildFixedRow_length p0.1 p0.2)
  · intro j hj
    have hfold : seq.foldl (fun a q => mergeRow a (buildFixedRow q.1 q.2))
        (buildFixedRow p0.1 p0.2)
        = (seq.map (fun q => buildFixedRow q.1 q.2)).foldl mergeRow
            (buildFixedRow p0.1 p0.2) := by
      rw [List.foldl_map]
    rw [hfold, foldl_mergeRow_get? (seq.map (fun q => buildFixedRow q.1 q.2))
      (buildFixedRow p0.1 p0.2) j
      (by rw [buildFixedRow_length]; exact hj)
      (by
        intro b hb
        rcases List.mem_map.mp hb with ⟨q, _, rfl⟩
        rw [buildFixedRow_length, buildFixedRow_length]),
      foldl_updV_lastNonEmpty]
    simp [columnValues]

theorem claim_C1_witness :
    runSaves (some ⟨[FIXED_HEADERS], []⟩)
        [({ session_id := "s1", page_open_timestamp := "t0",
            status := "page_opened", user_agent := "UA" }, "c0"),
         ({ session_id := "s1", qr_location := "Bar",
            form_started_timestamp := "t1", status := "form_started" }, "c1")]
      = some ⟨[FIXED_HEADERS,
          ["s1", "t0", "t1", "", "", "Bar", "", "", "", "",
           "form_started", "No", "UA", "c1"]], []⟩ ∧
    ([({ session_id := "s1", qr_location := "Bar",
         form_started_timestamp := "t1", status := "form_started" },
       ("c1" : String))].foldl
        (fun a q => mergeRow a (buildFixedRow q.1 q.2))
        (buildFixedRow { session_id := "s1", page_open_timestamp := "t0",
                         status := "page_opened", user_agent := "UA" }
          "c0")).get? 1
      = some "t0" := by
  have h := claim_C1 "s1" []
    ({ session_id := "s1", page_open_timestamp := "t0",
       status := "page_opened", user_agent := "UA" }, "c0")
    [({ session_id := "s1", qr_location := "Bar",
        form_started_timestamp := "t1", status := "form_started" }, "c1")]
    (by simp) (by decide)
  exact ⟨h.1, h.2 1 (by omega)⟩

/-- Claim C9 as stated is false: saving step 3 and then step 1 leaves the
session record with completed = true while its status is form_started (step
1 overwrites status but never resets completed), so the rendered Completato
cell is the true token while Status_Finale is not fully_completed. -/
theorem claim_C9_counterexample :
    (runSteps {} [(3, "", "", "", "", "", "t1"),
                  (1, "Bar/Ristorante", "", "", "", "", "t2")]).completed
      = true ∧
    (runSteps {} [(3, "", "", "", "", "", "t1"),
                  (1, "Bar/Ristorante", "", "", "", "", "t2")]).status
      = "form_started" ∧
    (runSteps {} [(3, "", "", "", "", "", "t1"),
                  (1, "Bar/Ristorante", "", "", "", "", "t2")]).status
      ≠ "fully_completed" ∧
    (buildFixedRow (runSteps {} [(3, "", "", "", "", "", "t1"),
        (1, "Bar/Ristorante", "", "", "", "", "t2")]) "t3").get? 11
      = some "Sì" ∧
    (buildFixedRow (runSteps {} [(3, "", "", "", "", "", "t1"),
        (1, "Bar/Ristorante", "", "", "", "", "t2")]) "t3").get? 10
      = some "form_started" :=
  ⟨rfl, rfl, by decide, rfl, rfl⟩

/-- Claim C9 amended: across sequences of step saves (steps 1, 2, 3) in
which step 3, when present, occurs only as the final save — the order the
user interface enforces — a session record starting not yet completed
satisfies the invariant completed = true iff status = fully_completed, and
the rendered Completato cell is the true token exactly when Status_Finale
is fully_completed. -/
theorem claim_C9 (ud0 : SessionData)
    (steps : List (Nat × String × String × String × String × String × String))
    (h0c : ud0.completed = false) (h0s : ud0.status ≠ "fully_completed")
    (hmem : ∀ p ∈ steps, p.1 = 1 ∨ p.1 = 2 ∨ p.1 = 3)
    (hlast : ∀ p ∈ steps.dropLast, p.1 ≠ 3) :
    ((runSteps ud0 steps).completed = true ↔
      (runSteps ud0 steps).status = "fully_completed") ∧
    ∀ now, ((buildFixedRow (runSteps ud0 steps) now).get? 11 = some "Sì" ↔
      (runSteps ud0 steps).status = "fully_completed") := by
  have hiff : (runSteps ud0 steps).completed = true ↔
      (runSteps ud0 steps).status = "fully_completed" := by
    rcases List.eq_nil_or_concat steps with hnil | ⟨L, a, hLa⟩
    · subst hnil
      simp [runSteps, h0c, h0s]
    · rw [List.concat_eq_append] at hLa
      subst hLa
      have hlastL : ∀ p ∈ L, p.1 ≠ 3 := by
        intro p hp
        exact hlast p (by rw [List.dropLast_concat]; exact hp)
      have hmemL : ∀ p ∈ L, p.1 = 1 ∨ p.1 = 2 := by
        intro p hp
        rcases hmem p (List.mem_append_left _ hp) with h | h | h
        · exact Or.inl h
        · exact Or.inr h
        · exact absurd h (hlastL p hp)
      have hrun : runSteps ud0 (L ++ [a])
          = stepUpdate (runSteps ud0 L) a.1 a.2.1 a.2.2.1 a.2.2.2.1
              a.2.2.2.2.1 a.2.2.2.2.2.1 a.2.2.2.2.2.2 := by
        simp [runSteps, List.foldl_append]
      obtain ⟨hcomp, hstat⟩ := runSteps_no3 L ud0 hmemL
      rcases hmem a (List.mem_append_right _ (by simp)) with h1 | h2 | h3
      · rw [hrun, h1]
        rw [show stepUpdate (runSteps ud0 L) 1 a.2.1 a.2.2.1 a.2.2.2.1
              a.2.2.2.2.1 a.2.2.2.2.2.1 a.2.2.2.2.2.2
            = { runSteps ud0 L with qr_location := a.2.1,
                                    form_started_timestamp := a.2.2.2.2.2.2,
                                    status := "form_started" } from rfl]
        rw [show ({ runSteps ud0 L with qr_location := a.2.1,
                                        form_started_timestamp := a.2.2.2.2.2.2,
                                        status := "form_started" } :
            SessionData).completed = (runSteps ud0 L).completed from rfl]
        rw [show ({ runSteps ud0 L with qr_location := a.2.1,
                                        form_started_timestamp := a.2.2.2.2.2.2,
                                        status := "form_started" } :
            SessionData).status = "form_started" from rfl]
        rw [hcomp, h0c]
        decide
      · rw [hrun, h2]
        rw [show stepUpdate (runSteps ud0 L) 2 a.2.1 a.2.2.1 a.2.2.2.1
              a.2.2.2.2.1 a.2.2.2.2.2.1 a.2.2.2.2.2.2
            = { runSteps ud0 L with age_range := a.2.2.1,
                                    gender := a.2.2.2.1,
                                    birth_province := a.2.2.2.2.1,
                                    education := a.2.2.2.2.2.1,
                                    status := "step2_completed",
                                    step2_timestamp := a.2.2.2.2.2.2 }
            from rfl]
        rw [show ({ runSteps ud0 L with age_range := a.2.2.1,
                                        gender := a.2.2.2.1,
                                        birth_province := a.2.2.2.2.1,
                                        education := a.2.2.2.2.2.1,
                                        status := "step2_completed",
                                        step2_timestamp := a.2.2.2.2.2.2 } :
            SessionData).completed = (runSteps ud0 L).completed from rfl]
        rw [show ({ runSteps ud0 L with age_range := a.2.2.1,
                                        gender := a.2.2.2.1,
                                        birth_province := a.2.2.2.2.1,
                                        education := a.2.2.2.2.2.1,
                                        status := "step2_completed",
                                        step2_timestamp := a.2.2.2.2.2.2 } :
            SessionData).status = "step2_completed" from rfl]
        rw [hcomp, h0c]
        decide
      · rw [hrun, h3]
        rw [show stepUpdate (runSteps ud0 L) 3 a.2.1 a.2.2.1 a.2.2.2.1
              a.2.2.2.2.1 a.2.2.2.2.2.1 a.2.2.2.2.2.2
            = { runSteps ud0 L with status := "fully_completed",
                                    completion_timestamp := a.2.2.2.2.2.2,
                                    completed := true } from rfl]
        rw [show ({ runSteps ud0 L with status := "fully_completed",
                                        completion_timestamp := a.2.2.2.2.2.2,
                                        completed := true } :
            SessionData).completed = true from rfl]
        rw [show ({ runSteps ud0 L with status := "fully_completed",
                                        completion_timestamp := a.2.2.2.2.2.2,
                                        completed := true } :
            SessionData).status = "fully_completed" from rfl]
        decide
  refine ⟨hiff, ?_⟩
  intro now
  rw [completato_cell]
  cases hc : (runSteps ud0 steps).completed with
  | true =>
    simp only [hc, if_true, true_iff, iff_true]
    exact hiff.mp hc
  | false =>
    simp [hc]
    intro hs
    have := hiff.mpr hs
    rw [hc] at this
    exact Bool.false_ne_true this

theorem claim_C9_witness :
    ((runSteps {} [(1, "Bar", "", "", "", "", "t1"),
                   (3, "", "", "", "", "", "t3")]).completed = true ↔
      (runSteps {} [(1, "Bar", "", "", "", "", "t1"),
                    (3, "", "", "", "", "", "t3")]).status
        = "fully_completed") ∧
    ((buildFixedRow (runSteps {} [(1, "Bar", "", "", "", "", "t1"),
        (3, "", "", "", "", "", "t3")]) "t4").get? 11 = some "Sì" ↔
      (runSteps {} [(1, "Bar", "", "", "", "", "t1"),
                    (3, "", "", "", "", "", "t3")]).status
        = "fully_completed") := by
  have h := claim_C9 {} [(1, "Bar", "", "", "", "", "t1"),
    (3, "", "", "", "", "", "t3")] rfl (by decide) (by decide) (by decide)
  exact ⟨h.1, h.2 "t4"⟩

end CyberSec
